import Mathlib

/-!
# Verification of the Crow Shepherd hub (crow_security)

Shallow embedding of the plugin's hub, config-flow and entity-adapter
logic, faithful to `custom_components/hub.py`, `const.py`,
`config_flow.py`, `switch.py`, `binary_sensor.py` and
`crow_shepherd/sensor.py`.

Python values that the code branches on by `isinstance` / truthiness are
modelled by the `PyVal` type; Python dictionaries by association lists
with first-match lookup; network calls by an explicit outcome parameter
(success value, vendor response error with status code, or other
exception); a Python function that may raise is modelled as returning
`CallResult` (either `returns v` or `raises`), so totality of a Lean
function into a plain value type encodes "never raises".
-/

/-- A Python runtime value, as far as this code base inspects one:
`None`, `bool`, `int`, or `str`. `bool` and `int` are separate
constructors because the code tests `isinstance(state, bool)` before
`isinstance(state, int)`. -/
inductive PyVal where
  | none
  | bool (b : Bool)
  | int (n : Int)
  | str (s : String)
  deriving DecidableEq, Repr

/-- Python truthiness for the values above: `None`, `False`, `0` and
`""` are falsy, everything else truthy. -/
def pyTruthy : PyVal → Bool
  | .none => false
  | .bool b => b
  | .int n => n != 0
  | .str s => s.length != 0

/-- Python's short-circuiting `a or b`: yields `a` when `a` is truthy,
otherwise `b`. -/
def pyOr (a b : PyVal) : PyVal := if pyTruthy a then a else b

/-- `d.get(k)` on a Python dict modelled as an association list:
the value at the first matching key, else `None`. -/
def dGet (d : List (String × PyVal)) (k : String) : PyVal :=
  match d with
  | [] => .none
  | (k', v) :: rest => if k = k' then v else dGet rest k

/-- `k in d` on a Python dict modelled as an association list. -/
def hasKey (d : List (String × PyVal)) (k : String) : Bool :=
  match d with
  | [] => false
  | (k', _) :: rest => k = k' || hasKey rest k

/-- `d.get(k, default)` for a string-valued dict (used for the two state
mapping tables in `const.py`). -/
def dictGetD (d : List (String × String)) (k : String) (dflt : String) : String :=
  match d with
  | [] => dflt
  | (k', v) :: rest => if k = k' then v else dictGetD rest k dflt

/-- `STATE_MAP` from `const.py`: vendor alarm state → Home Assistant state. -/
def STATE_MAP : List (String × String) :=
  [("armed", "armed_away"),
   ("arm in progress", "arming"),
   ("stay arm in progress", "arming"),
   ("stay_armed", "armed_home"),
   ("disarmed", "disarmed")]

/-- `SET_STATE_MAP` from `const.py`: desired Home Assistant state →
vendor command token. Note the third key is `"disarm"`, not
`"disarmed"`. -/
def SET_STATE_MAP : List (String × String) :=
  [("armed_home", "stay"),
   ("armed_away", "arm"),
   ("disarm", "disarm")]

/-- `CrowHub.map_alarm_state` (`hub.py`):
`STATE_MAP.get(api_state, "disarmed")`. -/
def map_alarm_state (api_state : String) : String :=
  dictGetD STATE_MAP api_state "disarmed"

/-- The vendor command token computed by `CrowHub.set_area_state`
(`hub.py` line 150): `SET_STATE_MAP.get(state, "disarm")`. -/
def set_area_state_token (state : String) : String :=
  dictGetD SET_STATE_MAP state "disarm"

/-! ## Network call outcomes

Calls into the vendor SDK either return a value, raise the SDK's
`ResponseError` (which carries an HTTP-like `status_code`), or raise
some other exception. The hub's behaviour is a pure function of this
outcome. -/

/-- Outcome of one call into the vendor SDK (`panel.get_zones()`,
`panel.set_area_state(...)`, ...). -/
inductive VendorOutcome (α : Type) where
  | ok (v : α)
  | respError (status : Nat)
  | exn
  deriving DecidableEq, Repr

/-- Result of calling a Python method that may raise: it either returns
a value or propagates an exception. -/
inductive CallResult (α : Type) where
  | returns (v : α)
  | raises
  deriving DecidableEq, Repr

/-! ## Cached getters (`hub.py`)

`_get_devices` / `_get_measurements` / `_get_outputs` catch every
exception and return `None`; the Home Assistant `@Throttle` decorator
also returns `None` inside the throttle window. So the inner helper's
result is `Option (List α)`, with `none` covering failure and
throttling alike. Each public getter receives the current cache
(`self._devices` etc., `Option (List α)`, `none` before the first
store) and returns the new cache together with the returned list. -/

/-- The throttled inner fetch `CrowHub._get_devices` (and its
measurement / output twins): returns the fetched list on success and
`None` on `ResponseError` and on any other exception. -/
def inner_fetch {α : Type} (outcome : VendorOutcome (List α)) : Option (List α) :=
  match outcome with
  | .ok zs => some zs
  | .respError _ => Option.none
  | .exn => Option.none

/-- `CrowHub.get_devices`: `devices = await self._get_devices();
if devices: self._devices = devices; return self._devices or []`.
The first component is the new cache, the second the returned list.
Python's `if devices:` is list truthiness, i.e. non-emptiness. -/
def get_devices {α : Type} (cache : Option (List α)) (fetched : Option (List α)) :
    Option (List α) × List α :=
  let cache' :=
    match fetched with
    | some ds => if ds.isEmpty then cache else some ds
    | Option.none => cache
  (cache', cache'.getD [])

/-- `CrowHub.get_measurements`: same shape as `get_devices` over the
measurement cache. -/
def get_measurements {α : Type} (cache : Option (List α))
    (fetched : Option (List α)) : Option (List α) × List α :=
  get_devices cache fetched

/-- `CrowHub.get_outputs`: same shape as `get_devices` over the output
cache. -/
def get_outputs {α : Type} (cache : Option (List α))
    (fetched : Option (List α)) : Option (List α) × List α :=
  get_devices cache fetched

/-- `CrowHub.get_areas`: unthrottled; on success stores *and returns*
the fetched list unconditionally (`self._areas = areas; return areas`),
on `ResponseError` or any other exception returns `self._areas or []`
with the cache untouched. -/
def get_areas {α : Type} (cache : Option (List α))
    (outcome : VendorOutcome (List α)) : Option (List α) × List α :=
  match outcome with
  | .ok as0 => (some as0, as0)
  | .respError _ => (cache, cache.getD [])
  | .exn => (cache, cache.getD [])

/-! ## Commands (`hub.py`) -/

/-- `CrowHub.set_area_state`, as a function of the vendor call's
outcome: on success returns the vendor's value; on `ResponseError`
with `status_code == 408` returns `None`; on any other `ResponseError`
and on any other exception it re-raises. -/
def set_area_state {α : Type} (outcome : VendorOutcome α) :
    CallResult (Option α) :=
  match outcome with
  | .ok v => .returns (some v)
  | .respError s => if s = 408 then .returns Option.none else .raises
  | .exn => .raises

/-- `CrowHub.set_output_state`, as a function of the vendor call's
outcome: `True` on success, `False` on `ResponseError` and on any
other exception; the function always returns (never raises), which the
plain `Bool` result type encodes. -/
def set_output_state (outcome : VendorOutcome Unit) : Bool :=
  match outcome with
  | .ok _ => true
  | .respError _ => false
  | .exn => false

/-! ## Subscriptions (`hub.py`)

`self._subscriptions` is a Python dict from device id to callback. A
dict is modelled as an association list without duplicate keys; keys
keep insertion order, assignment to an existing key updates in place,
`pop(k, None)` removes the entry when present and does nothing (no
exception) when absent. -/

/-- Dict assignment `d[k] = v`: replace the value at the first matching
key in place, else append at the end (Python insertion order). -/
def dictSet {ν : Type} (d : List (String × ν)) (k : String) (v : ν) :
    List (String × ν) :=
  match d with
  | [] => [(k, v)]
  | (k', v') :: rest =>
    if k' = k then (k, v) :: rest else (k', v') :: dictSet rest k v

/-- Dict `d.pop(k, None)` restricted to its effect on the dict: remove
the first entry with key `k` when present, leave the dict unchanged
(and raise nothing) when absent. -/
def dictPop {ν : Type} (d : List (String × ν)) (k : String) :
    List (String × ν) :=
  match d with
  | [] => []
  | (k', v') :: rest =>
    if k' = k then rest else (k', v') :: dictPop rest k

/-- Dict membership lookup `d.get(k)` / `d[k]` for the subscription map:
the value at the first matching key, if any. -/
def dictFind {ν : Type} (d : List (String × ν)) (k : String) : Option ν :=
  match d with
  | [] => Option.none
  | (k', v) :: rest => if k' = k then some v else dictFind rest k

/-- `CrowHub.subscribe`: `self._subscriptions[device_id] = callback`. -/
def subscribe {ν : Type} (subs : List (String × ν)) (device_id : String)
    (callback : ν) : List (String × ν) :=
  dictSet subs device_id callback

/-- `CrowHub.unsubscribe`: `self._subscriptions.pop(device_id, None)`. -/
def unsubscribe {ν : Type} (subs : List (String × ν)) (device_id : String) :
    List (String × ν) :=
  dictPop subs device_id

/-! ## Websocket dispatch (`hub.py`, `ws_connect.ws_callback`)

An inbound message is a JSON object; the handler only reads
`msg.get("type")`, `msg.get("data", {}).get("_id", {}).get("dect_interface")`
and `msg.get("data", {}).get("_id", {}).get("device_id")`, so the
message is modelled by those three projections (`none` = path absent).
A subscriber callback may raise, modelled as `μ → Except Unit Unit`. -/

/-- The three fields of an inbound websocket message that
`ws_callback` inspects. -/
structure WsMsg where
  type : Option String
  dect_interface : Option Int
  device_id : Option String

/-- What one run of the dispatch handler did — it always returns
normally, which this plain result type encodes. -/
inductive DispatchResult where
  | skippedInfo
  | noCallback
  | callbackReturned
  | callbackRaised
  deriving DecidableEq, Repr

/-- The `ws_callback` message handler: drops `type == "info"` messages
whose `data._id.dect_interface == 32768`; otherwise reads
`data._id.device_id` and, when it is truthy and has a registered
subscription, invokes that callback inside a `try/except` that catches
every exception. Messages with no (or falsy) device id, or with no
registered callback, are dropped without invoking any callback. -/
def ws_callback (subs : List (String × (WsMsg → Except Unit Unit)))
    (msg : WsMsg) : DispatchResult :=
  if msg.type = some "info" && msg.dect_interface = some 32768 then
    .skippedInfo
  else
    match msg.device_id with
    | some did =>
      if did.length ≠ 0 then
        match dictFind subs did with
        | some cb =>
          match cb msg with
          | .ok _ => .callbackReturned
          | .error _ => .callbackRaised
        | Option.none => .noCallback
      else .noCallback
    | Option.none => .noCallback

/-! ## MAC normalization (`config_flow.py`) -/

/-- The character class of `re.sub(r'[:\-\s.]', '', mac)`: `:`,
`-`, `.`, and regex `\s` whitespace (for ASCII input: space, tab,
newline, carriage return, vertical tab, form feed, and the file
separator block 0x1c–0x1f; plus the next-line and no-break-space
and Unicode space characters Python's `\s` accepts on `str`). -/
def strippedByNormalize (c : Char) : Bool :=
  c = ':' || c = '-' || c = '.' ||
  c = ' ' || c = '\t' || c = '\n' || c = '\r' ||
  c = '\x0b' || c = '\x0c' ||
  c = '\x1c' || c = '\x1d' || c = '\x1e' || c = '\x1f' ||
  c = '\x85' || c = '\xa0' || c = ' ' ||
  (' ' ≤ c && c ≤ ' ') ||
  c = ' ' || c = ' ' || c = ' ' || c = ' ' ||
  c = '　'

/-- `normalize_mac_address` (`config_flow.py`): removes every separator
and whitespace character, then lowercases
(`re.sub(r'[:\-\s.]', '', mac).lower()`). -/
def normalize_mac_address (mac : String) : String :=
  String.mk (((mac.data.filter (fun c => !strippedByNormalize c)).map
    Char.toLower))

/-- The regex character class `[0-9a-f]` as a codepoint range test
(`'0'` = 48, `'9'` = 57, `'a'` = 97, `'f'` = 102). -/
def isLowerHexChar (c : Char) : Bool :=
  (48 ≤ c.toNat && c.toNat ≤ 57) || (97 ≤ c.toNat && c.toNat ≤ 102)

/-- `is_valid_mac` (`config_flow.py`):
`bool(re.match(r'^[0-9a-f]{12}$', normalize_mac_address(mac)))`, i.e.
the normalized form is exactly 12 characters, each in `[0-9a-f]`.
(The `$` anchor would also accept a trailing newline, but the
normalized form cannot contain one since `\n` is stripped.) -/
def is_valid_mac (mac : String) : Bool :=
  let n := (normalize_mac_address mac).data
  n.length = 12 && n.all isLowerHexChar

/-- A hexadecimal character in the sense of the specification:
`[0-9a-fA-F]` (`'A'` = 65, `'F'` = 70). -/
def isHexChar (c : Char) : Bool :=
  (48 ≤ c.toNat && c.toNat ≤ 57) || (97 ≤ c.toNat && c.toNat ≤ 102) ||
  (65 ≤ c.toNat && c.toNat ≤ 70)

/-! ## Entity adapters -/

/-- `OUTPUT_STATE_ON` from `const.py`. -/
def OUTPUT_STATE_ON : String := "on"

/-- Python `str.lower()` (character-by-character lowercasing). -/
def pyLower (s : String) : String := String.mk (s.data.map Char.toLower)

/-- `CrowShepherdOutputSwitch.is_on` (`switch.py`) applied to the
output's state value: a `bool` is itself; an `int` is on iff it equals
1; a `str` is on iff its lowercasing is one of `"on"`, `"1"`,
`"true"`, `"active"`, `"activated"`; anything else is off. -/
def is_on (state : PyVal) : Bool :=
  match state with
  | .bool b => b
  | .int n => n = 1
  | .str s =>
    [OUTPUT_STATE_ON, "1", "true", "active", "activated"].contains (pyLower s)
  | .none => false

/-- The zone id-alias lookup shared by `CrowShepherdZoneSensor.__init__`
(`binary_sensor.py`) and `CrowShepherdZoneBatterySensor.__init__`
(`crow_shepherd/sensor.py`):
`zone_data.get("id") or zone_data.get("zoneId") or zone_data.get("zone_id")`. -/
def resolve_zone_id (zone_data : List (String × PyVal)) : PyVal :=
  pyOr (dGet zone_data "id") (pyOr (dGet zone_data "zoneId")
    (dGet zone_data "zone_id"))

/-! ## Helper lemmas -/

/-- `Char.ofNat` on a valid codepoint round-trips through `toNat`. -/
theorem char_toNat_ofNat_valid {n : Nat} (h : n.isValidChar) :
    (Char.ofNat n).toNat = n := by
  simp only [Char.ofNat, dif_pos h, Char.ofNatAux, Char.toNat]
  rfl

/-- `Char.toLower` never yields a basic-latin uppercase letter. -/
theorem toLower_toNat_not_upper (c : Char) :
    ¬(65 ≤ c.toLower.toNat ∧ c.toLower.toNat ≤ 90) := by
  simp only [Char.toLower]
  split
  · next h =>
    rw [char_toNat_ofNat_valid (Or.inl (by omega))]
    omega
  · next h =>
    simpa using h

/-- A key absent from a dict is not found. -/
theorem dictFind_eq_none_of_not_mem {ν : Type} (d : List (String × ν))
    (k : String) (h : k ∉ d.map Prod.fst) : dictFind d k = Option.none := by
  induction d with
  | nil => rfl
  | cons hd tl ih =>
    obtain ⟨a, b⟩ := hd
    simp only [List.map_cons, List.mem_cons, not_or] at h
    simp only [dictFind, if_neg (fun hk : a = k => h.1 hk.symm)]
    exact ih h.2

/-- Removing an absent key is a no-op. -/
theorem dictPop_eq_self {ν : Type} (d : List (String × ν)) (k : String)
    (h : dictFind d k = Option.none) : dictPop d k = d := by
  induction d with
  | nil => rfl
  | cons hd tl ih =>
    obtain ⟨a, b⟩ := hd
    by_cases hk : a = k
    · simp [dictFind, hk] at h
    · simp only [dictFind, if_neg hk] at h
      simp only [dictPop, if_neg hk]
      rw [ih h]

/-- Assignment does not disturb lookups at other keys. -/
theorem dictFind_dictSet_ne {ν : Type} (d : List (String × ν))
    (k k' : String) (v : ν) (h : k' ≠ k) :
    dictFind (dictSet d k v) k' = dictFind d k' := by
  induction d with
  | nil => simp [dictSet, dictFind, if_neg (fun hk : k = k' => h hk.symm)]
  | cons hd tl ih =>
    obtain ⟨a, b⟩ := hd
    by_cases hk : a = k
    · simp only [dictSet, if_pos hk, dictFind]
      rw [if_neg (fun hk2 : k = k' => h hk2.symm),
        if_neg (fun hk2 : a = k' => h (hk ▸ hk2).symm)]
    · simp only [dictSet, if_neg hk, dictFind]
      by_cases hk2 : a = k'
      · rw [if_pos hk2, if_pos hk2]
      · rw [if_neg hk2, if_neg hk2, ih]

/-- Removal does not disturb lookups at other keys. -/
theorem dictFind_dictPop_ne {ν : Type} (d : List (String × ν))
    (k k' : String) (h : k' ≠ k) :
    dictFind (dictPop d k) k' = dictFind d k' := by
  induction d with
  | nil => rfl
  | cons hd tl ih =>
    obtain ⟨a, b⟩ := hd
    by_cases hk : a = k
    · simp only [dictPop, if_pos hk, dictFind]
      rw [if_neg (fun hk2 : a = k' => h (hk ▸ hk2).symm)]
    · simp only [dictPop, if_neg hk, dictFind]
      by_cases hk2 : a = k'
      · rw [if_pos hk2, if_pos hk2]
      · rw [if_neg hk2, if_neg hk2, ih]

/-- On a dict without duplicate keys, assigning `k` and then popping `k`
removes the `k` entry entirely. -/
theorem dictFind_dictPop_dictSet {ν : Type} (d : List (String × ν))
    (k : String) (v : ν) (hnd : (d.map Prod.fst).Nodup) :
    dictFind (dictPop (dictSet d k v) k) k = Option.none := by
  induction d with
  | nil => simp [dictSet, dictPop, dictFind]
  | cons hd tl ih =>
    obtain ⟨a, b⟩ := hd
    simp only [List.map_cons, List.nodup_cons] at hnd
    by_cases hk : a = k
    · simp only [dictSet, if_pos hk, dictPop, if_pos rfl]
      exact dictFind_eq_none_of_not_mem tl k (hk ▸ hnd.1)
    · simp only [dictSet, if_neg hk, dictPop, if_neg hk, dictFind,
        if_neg hk]
      exact ih hnd.2

/-- Re-assigning the same key overwrites the previous value. -/
theorem dictFind_dictSet_dictSet {ν : Type} (d : List (String × ν))
    (k : String) (v1 v2 : ν) :
    dictFind (dictSet (dictSet d k v1) k v2) k = some v2 := by
  induction d with
  | nil => simp [dictSet, dictFind]
  | cons hd tl ih =>
    obtain ⟨a, b⟩ := hd
    by_cases hk : a = k
    · simp [dictSet, if_pos hk, dictFind]
    · simp only [dictSet, if_neg hk, dictFind, if_neg hk]
      exact ih

/-- A key the dict does not contain reads as `None` via `.get`. -/
theorem dGet_eq_none_of_hasKey_false (d : List (String × PyVal))
    (k : String) (h : hasKey d k = false) : dGet d k = PyVal.none := by
  induction d with
  | nil => rfl
  | cons hd tl ih =>
    obtain ⟨a, b⟩ := hd
    simp only [hasKey, Bool.or_eq_false_iff, decide_eq_false_iff_not] at h
    simp only [dGet, if_neg h.1]
    exact ih h.2

/-! ## Claims -/

/-- C2: `map_alarm_state` sends each vendor state in the fixed table to
its documented host state — `"armed" ↦ "armed_away"`,
`"arm in progress" ↦ "arming"`, `"stay arm in progress" ↦ "arming"`,
`"stay_armed" ↦ "armed_home"`, `"disarmed" ↦ "disarmed"` — and every
string outside the table to `"disarmed"`. -/
theorem C2_map_alarm_state_table :
    map_alarm_state "armed" = "armed_away" ∧
    map_alarm_state "arm in progress" = "arming" ∧
    map_alarm_state "stay arm in progress" = "arming" ∧
    map_alarm_state "stay_armed" = "armed_home" ∧
    map_alarm_state "disarmed" = "disarmed" ∧
    ∀ s : String, s ≠ "armed" → s ≠ "arm in progress" →
      s ≠ "stay arm in progress" → s ≠ "stay_armed" → s ≠ "disarmed" →
      map_alarm_state s = "disarmed" := by
  refine ⟨rfl, rfl, rfl, rfl, rfl, ?_⟩
  intro s h1 h2 h3 h4 h5
  simp [map_alarm_state, dictGetD, STATE_MAP, h1, h2, h3, h4, h5]

/-- C2 witness: an unmapped vendor state maps to `"disarmed"`. -/
theorem C2_witness : map_alarm_state "alarm in memory" = "disarmed" :=
  C2_map_alarm_state_table.2.2.2.2.2 "alarm in memory"
    (by decide) (by decide) (by decide) (by decide) (by decide)

/-- C4: the vendor command token computed by `set_area_state` is
`"stay"` for `"armed_home"`, `"arm"` for `"armed_away"`, `"disarm"`
for `"disarmed"`, and `"disarm"` for every other input (the table's
explicit `"disarm"` key and the `.get` default agree). -/
theorem C4_set_state_token_table :
    set_area_state_token "armed_home" = "stay" ∧
    set_area_state_token "armed_away" = "arm" ∧
    set_area_state_token "disarmed" = "disarm" ∧
    ∀ s : String, s ≠ "armed_home" → s ≠ "armed_away" →
      set_area_state_token s = "disarm" := by
  refine ⟨rfl, rfl, rfl, ?_⟩
  intro s h1 h2
  by_cases h3 : s = "disarm" <;>
    simp [set_area_state_token, dictGetD, SET_STATE_MAP, h1, h2, h3]

/-- C4 witness: an unknown desired state is sent as `"disarm"`. -/
theorem C4_witness : set_area_state_token "triggered" = "disarm" :=
  C4_set_state_token_table.2.2.2 "triggered" (by decide) (by decide)

/-- C3: `set_area_state` swallows a vendor `ResponseError` whose status
code is 408 (it returns `None` instead of raising) and re-raises a
`ResponseError` with any other status code. -/
theorem C3_set_area_state_408 {α : Type} (s : Nat) :
    (s = 408 →
      set_area_state (VendorOutcome.respError s : VendorOutcome α) =
        CallResult.returns Option.none) ∧
    (s ≠ 408 →
      set_area_state (VendorOutcome.respError s : VendorOutcome α) =
        CallResult.raises) := by
  constructor
  · intro h
    simp [set_area_state, h]
  · intro h
    simp [set_area_state, h]

/-- C3 witness: 408 is swallowed, 500 is re-raised. -/
theorem C3_witness :
    set_area_state (VendorOutcome.respError 408 : VendorOutcome Unit) =
      CallResult.returns Option.none ∧
    set_area_state (VendorOutcome.respError 500 : VendorOutcome Unit) =
      CallResult.raises :=
  ⟨(C3_set_area_state_408 408).1 rfl,
   (C3_set_area_state_408 500).2 (by decide)⟩

/-- C7: `set_output_state` returns `True` exactly when the vendor call
succeeds and `False` when it raises a `ResponseError` (any status) or
any other exception; its plain `Bool` result type records that it
never propagates an exception. -/
theorem C7_set_output_state_bool :
    set_output_state (VendorOutcome.ok ()) = true ∧
    (∀ s : Nat, set_output_state (VendorOutcome.respError s) = false) ∧
    set_output_state VendorOutcome.exn = false :=
  ⟨rfl, fun _ => rfl, rfl⟩

/-- C1 counterexample: the claim "the cached list is replaced only when
a fetch succeeds and returns a non-empty list" fails for the area
cache: with `some [1]` cached, a successful fetch of the *empty* list
replaces the cache with `some []`. -/
theorem C1_counterexample :
    (get_areas (some [1]) (VendorOutcome.ok ([] : List Nat))).1 = some [] ∧
    (some ([] : List Nat)) ≠ some [1] := by
  constructor
  · rfl
  · decide

/-- C1 (amended): a failed fetch never changes any cache and makes the
getter return the previously cached list (or `[]` if nothing was
cached) — encoded without exceptions, so nothing is raised; the
device, measurement and output caches are replaced only by a
successful non-empty fetch (a successful empty fetch leaves them
alone); the area cache, however, is replaced by *every* successful
fetch, including an empty one. -/
theorem C1_cache_last_known_good {α : Type} (cache : Option (List α))
    (l : List α) :
    get_devices cache Option.none = (cache, cache.getD []) ∧
    get_measurements cache Option.none = (cache, cache.getD []) ∧
    get_outputs cache Option.none = (cache, cache.getD []) ∧
    (∀ s : Nat, get_areas cache (VendorOutcome.respError s) =
      (cache, cache.getD [])) ∧
    get_areas cache VendorOutcome.exn = (cache, cache.getD []) ∧
    (l ≠ [] → (get_devices cache (some l)).1 = some l ∧
      (get_measurements cache (some l)).1 = some l ∧
      (get_outputs cache (some l)).1 = some l) ∧
    (get_devices cache (some [])).1 = cache ∧
    (get_measurements cache (some [])).1 = cache ∧
    (get_outputs cache (some [])).1 = cache ∧
    (get_areas cache (VendorOutcome.ok l)).1 = some l := by
  refine ⟨rfl, rfl, rfl, fun _ => rfl, rfl, ?_, rfl, rfl, rfl, rfl⟩
  intro hl
  have h : l.isEmpty = false := by
    cases l with
    | nil => exact absurd rfl hl
    | cons a as => rfl
  refine ⟨?_, ?_, ?_⟩ <;>
    simp [get_devices, get_measurements, get_outputs, h]

/-- C1 witness: with `some [1]` cached and a successful non-empty
fetch `[2]`, the device cache is replaced by `some [2]`; a failed
fetch leaves `some [1]` in place and returns `[1]`. -/
theorem C1_witness :
    get_devices (some [1]) (Option.none : Option (List Nat)) =
      (some [1], [1]) ∧
    (get_devices (some [1]) (some [2])).1 = some [2] :=
  ⟨(C1_cache_last_known_good (some [1]) ([2] : List Nat)).1,
   ((C1_cache_last_known_good (some [1]) ([2] : List Nat)).2.2.2.2.2.1
     (by decide)).1⟩

/-- C5 counterexample: the claim's list of on-strings omits `"true"`:
the code reports an output with state `"true"` as on, although
`"true"` is none of `"on"`, `"1"`, `"active"`, `"activated"` (and the
value is neither the boolean `True` nor the integer 1). -/
theorem C5_counterexample :
    is_on (PyVal.str "true") = true ∧
    pyLower "true" ≠ "on" ∧ pyLower "true" ≠ "1" ∧
    pyLower "true" ≠ "active" ∧ pyLower "true" ≠ "activated" ∧
    PyVal.str "true" ≠ PyVal.bool true ∧
    PyVal.str "true" ≠ PyVal.int 1 := by
  decide

/-- C5 (amended): the switch `is_on` value is `True` exactly for the
boolean `True`, the integer 1, and the strings whose lowercasing is
one of `"on"`, `"1"`, `"true"`, `"active"`, `"activated"` — i.e. the
claim's set extended with `"true"` — and `False` for every other
value. -/
theorem C5_is_on_characterization (v : PyVal) :
    is_on v = true ↔
      (v = PyVal.bool true ∨ v = PyVal.int 1 ∨
        ∃ s : String, v = PyVal.str s ∧
          (pyLower s = "on" ∨ pyLower s = "1" ∨ pyLower s = "true" ∨
            pyLower s = "active" ∨ pyLower s = "activated")) := by
  cases v with
  | none => simp [is_on]
  | bool b => cases b <;> simp [is_on]
  | int n => simp [is_on]
  | str s => simp [is_on, OUTPUT_STATE_ON, List.contains]

/-- C5 witness: `"Active"` lowercases into the on-set, so the switch
reports on. -/
theorem C5_witness : is_on (PyVal.str "Active") = true :=
  (C5_is_on_characterization (PyVal.str "Active")).mpr
    (Or.inr (Or.inr ⟨"Active", rfl, by decide⟩))

/-- C8 counterexample: a record holding `zoneId` with the falsy value
`0` (and no `id` / `zone_id` key) does *not* resolve to that value:
Python's `or`-chain skips falsy operands, so the lookup yields `None`
instead of `0`. -/
theorem C8_counterexample :
    hasKey [("zoneId", PyVal.int 0)] "id" = false ∧
    hasKey [("zoneId", PyVal.int 0)] "zone_id" = false ∧
    dGet [("zoneId", PyVal.int 0)] "zoneId" = PyVal.int 0 ∧
    resolve_zone_id [("zoneId", PyVal.int 0)] = PyVal.none ∧
    PyVal.none ≠ PyVal.int 0 := by
  decide

/-- C8 (amended): for a record containing `zoneId` but neither `id`
nor `zone_id`, the alias lookup resolves to the `zoneId` value when
that value is truthy; when the `zoneId` value is falsy the chain falls
through to `None`. -/
theorem C8_alias_lookup (zone_data : List (String × PyVal)) (v : PyVal)
    (hid : hasKey zone_data "id" = false)
    (hzid : hasKey zone_data "zone_id" = false)
    (_hkey : hasKey zone_data "zoneId" = true)
    (hv : dGet zone_data "zoneId" = v) :
    resolve_zone_id zone_data = (if pyTruthy v then v else PyVal.none) := by
  have h1 := dGet_eq_none_of_hasKey_false zone_data "id" hid
  have h2 := dGet_eq_none_of_hasKey_false zone_data "zone_id" hzid
  simp [resolve_zone_id, pyOr, h1, h2, hv, pyTruthy]

/-- C8 witness: a record with only a truthy `zoneId` resolves to that
value. -/
theorem C8_witness :
    resolve_zone_id [("zoneId", PyVal.str "z7")] = PyVal.str "z7" := by
  have h := C8_alias_lookup [("zoneId", PyVal.str "z7")] (PyVal.str "z7")
    (by decide) (by decide) (by decide) (by decide)
  simpa using h

/-- C6: `normalize_mac_address` turns `"AA:BB:CC:DD:EE:FF"` into
`"aabbccddeeff"`, and `is_valid_mac` holds iff the normalized form is
exactly 12 characters, each a hexadecimal character (`[0-9a-fA-F]`) —
equivalently `[0-9a-f]`, since the normalized form is lowercased. -/
theorem C6_mac_normalization :
    normalize_mac_address "AA:BB:CC:DD:EE:FF" = "aabbccddeeff" ∧
    ∀ mac : String, is_valid_mac mac = true ↔
      ((normalize_mac_address mac).data.length = 12 ∧
        ∀ c ∈ (normalize_mac_address mac).data, isHexChar c = true) := by
  constructor
  · decide
  · intro mac
    constructor
    · intro h
      simp only [is_valid_mac, Bool.and_eq_true, List.all_eq_true,
        decide_eq_true_eq] at h
      refine ⟨h.1, fun c hc => ?_⟩
      have h2 := h.2 c hc
      simp only [isLowerHexChar, isHexChar, Bool.or_eq_true,
        Bool.and_eq_true, decide_eq_true_eq] at h2 ⊢
      omega
    · rintro ⟨hlen, hhex⟩
      simp only [is_valid_mac, Bool.and_eq_true, List.all_eq_true,
        decide_eq_true_eq]
      refine ⟨hlen, fun c hc => ?_⟩
      have hh := hhex c hc
      have hmem : ∃ c0, Char.toLower c0 = c := by
        simp only [normalize_mac_address, String.data] at hc
        obtain ⟨c0, _, hc0⟩ := List.mem_map.mp hc
        exact ⟨c0, hc0⟩
      obtain ⟨c0, rfl⟩ := hmem
      have hn := toLower_toNat_not_upper c0
      simp only [isHexChar, Bool.or_eq_true, Bool.and_eq_true,
        decide_eq_true_eq] at hh
      simp only [isLowerHexChar, Bool.or_eq_true, Bool.and_eq_true,
        decide_eq_true_eq]
      omega

/-- C6 witness: a colon-separated uppercase MAC is valid. -/
theorem C6_witness : is_valid_mac "AA:BB:CC:DD:EE:FF" = true :=
  (C6_mac_normalization.2 "AA:BB:CC:DD:EE:FF").mpr ⟨by decide, by decide⟩

/-- C9: the websocket dispatch handler catches subscriber exceptions —
when the routed callback raises, the handler still returns (with
`callbackRaised`, a normal return; its total result type records that
nothing propagates) — and a message whose device id has no registered
callback (or no usable device id at all) never invokes any callback:
the run cannot end in `callbackReturned` or `callbackRaised`. -/
theorem C9_dispatch_isolation
    (subs : List (String × (WsMsg → Except Unit Unit))) (msg : WsMsg) :
    (∀ did cb, msg.device_id = some did → did.length ≠ 0 →
      dictFind subs did = some cb → cb msg = Except.error () →
      ¬(msg.type = some "info" ∧ msg.dect_interface = some 32768) →
      ws_callback subs msg = DispatchResult.callbackRaised) ∧
    ((∀ did, msg.device_id = some did → dictFind subs did = Option.none) →
      ws_callback subs msg ≠ DispatchResult.callbackReturned ∧
      ws_callback subs msg ≠ DispatchResult.callbackRaised) := by
  constructor
  · intro did cb hdid hlen hfind hcb hskip
    have hcond : (decide (msg.type = some "info") &&
        decide (msg.dect_interface = some 32768)) = false := by
      by_cases h1 : msg.type = some "info"
      · by_cases h2 : msg.dect_interface = some 32768
        · exact absurd ⟨h1, h2⟩ hskip
        · simp [h2]
      · simp [h1]
    simp [ws_callback, hcond, hdid, hlen, hfind, hcb]
  · intro hnone
    unfold ws_callback
    split
    · exact ⟨by simp, by simp⟩
    · cases hd : msg.device_id with
      | none => simp [hd]
      | some did =>
        simp only [hd]
        by_cases hlen : did.length ≠ 0
        · simp only [if_pos hlen, hnone did hd]
          exact ⟨by simp, by simp⟩
        · simp only [if_neg hlen]
          exact ⟨by simp, by simp⟩

/-- C9 witness: a raising callback is caught for a concrete message. -/
theorem C9_witness :
    ws_callback [("d1", fun _ => Except.error ())]
      ⟨some "zone", Option.none, some "d1"⟩ =
      DispatchResult.callbackRaised :=
  (C9_dispatch_isolation [("d1", fun _ => Except.error ())]
      ⟨some "zone", Option.none, some "d1"⟩).1
    "d1" (fun _ => Except.error ()) rfl (by decide) rfl rfl (by decide)

/-- C10: `unsubscribe` on an unregistered device id leaves the
subscription map unchanged (and, being total, raises nothing);
`subscribe` then `unsubscribe` of the same id removes exactly that
entry, leaving every other id's callback as before (and, on a
duplicate-free map as Python dicts are, leaves the id unregistered);
and a second `subscribe` for the same id overwrites the first (last
registration wins). -/
theorem C10_subscription_algebra {ν : Type} (subs : List (String × ν))
    (k k' : String) (cb cb1 cb2 : ν) :
    (dictFind subs k = Option.none → unsubscribe subs k = subs) ∧
    (k' ≠ k → dictFind (unsubscribe (subscribe subs k cb) k) k' =
      dictFind subs k') ∧
    ((subs.map Prod.fst).Nodup →
      dictFind (unsubscribe (subscribe subs k cb) k) k = Option.none) ∧
    dictFind (subscribe (subscribe subs k cb1) k cb2) k = some cb2 := by
  refine ⟨fun h => dictPop_eq_self subs k h, fun h => ?_,
    fun h => dictFind_dictPop_dictSet subs k cb h,
    dictFind_dictSet_dictSet subs k cb1 cb2⟩
  rw [unsubscribe, subscribe, dictFind_dictPop_ne _ _ _ h,
    dictFind_dictSet_ne _ _ _ _ h]

/-- C10 witness: concrete subscription map `[("a", 1)]`. -/
theorem C10_witness :
    unsubscribe [("a", (1 : Nat))] "b" = [("a", 1)] ∧
    dictFind (unsubscribe (subscribe [("a", (1 : Nat))] "b" 7) "b") "a" =
      some 1 ∧
    dictFind (unsubscribe (subscribe [("a", (1 : Nat))] "b" 7) "b") "b" =
      Option.none ∧
    dictFind (subscribe (subscribe [("a", (1 : Nat))] "b" 7) "b" 9) "b" =
      some 9 := by
  have h := C10_subscription_algebra [("a", (1 : Nat))] "b" "a" 7 7 9
  exact ⟨h.1 rfl, h.2.1 (by decide), h.2.2.1 (by decide), h.2.2.2⟩
